import Mathlib

/-!
Verification of the SUBLYM dream-video generation pipeline.

This file is a shallow embedding of the generation-and-acceptance pipeline:

* the keyframe acceptance loop of `DreamPipeline.run`
  (src/generation/pipeline.py, lines 618-780);
* the video stage, completeness check, montage gating and final success flag
  (src/generation/pipeline.py, lines 789-953);
* the graduated V1/V2/V3 review selection of `ScenarioGenerator._validate`
  (src/generation/services/scenario_generator.py, lines 2168-2241);
* the cost ledger of `ScenarioGenerator._call_openai_structured` and
  `get_cost_breakdown` (scenario_generator.py, lines 2286-2299, 3047-3078);
* the outfit-reference handling of `_step4_parametres_scenes` and
  `convert_v7_to_pipeline` (scenario_generator.py, lines 1657-1708, 285-317);
* the camera-look relaxation (pipeline.py line 657, scenario_generator.py
  lines 227-238 and 306-317, image_generator.py lines 73-106);
* the biometric face check of `FaceValidator.validate`
  (src/generation/services/face_validator.py, lines 73-263).

Python floats are modelled as exact rationals; the non-deterministic LLM /
image-service outcomes are inputs to the embedded functions.
-/

namespace Sublym

/-! ### Keyframe acceptance loop (pipeline.py lines 618-780)

One iteration of `for attempt in range(kf_max_attempts)` either fails to
generate an image (`gen_result["success"]` falsy), or generates one and — when
`steps["validate_keyframes"]` is set and the scene is not POV — validates it,
obtaining a pass verdict and a `global_score`.  The outcome of each attempt is
an input to the embedding. -/

/-- Outcome of one generation attempt: whether the image service succeeded,
whether `validator.validate` passed, and the `global_score` it reported. -/
structure AttemptOutcome where
  genOk : Bool
  valPassed : Bool
  score : ℚ
deriving Repr, DecidableEq

/-- Loop state of the acceptance loop: `success`, the retained best failing
attempt `best` (a copy saved as a `.best` temp file, with its score — the
code keeps `best_score` and `best_path` in sync), the count `gen_failures`,
and which attempt's image currently occupies the keyframe path. -/
structure KfLoopState where
  success : Bool
  best : Option (ℕ × ℚ)
  genFailures : ℕ
  pathContent : Option ℕ
deriving Repr, DecidableEq

/-- Initial loop state: `success = False`, `best_score = -1.0`,
`best_path = None`, `gen_failures = 0`, no image at the keyframe path yet. -/
def kfInit : KfLoopState :=
  { success := false, best := Option.none, genFailures := 0,
    pathContent := Option.none }

/-- The running `best_score` (`-1.0` until a failing attempt is retained). -/
def bestScoreOf (s : KfLoopState) : ℚ :=
  match s.best with
  | Option.some (_, q) => q
  | Option.none => -1

/-- One iteration of the acceptance loop (pipeline.py lines 635-740).
`validating` is `steps["validate_keyframes"] and not is_pov`.  A generation
failure increments `gen_failures`; a generated attempt is written to the
keyframe path; with validation on, a pass sets `success` and breaks, a fail
retains the attempt as best when its score strictly exceeds `best_score`;
with validation off the first generated attempt succeeds immediately. -/
def kfLoopStep (validating : Bool) (i : ℕ) (o : AttemptOutcome)
    (s : KfLoopState) : KfLoopState :=
  if s.success then s
  else if o.genOk = false then { s with genFailures := s.genFailures + 1 }
  else
    let s1 := { s with pathContent := Option.some i }
    if validating then
      if o.valPassed then { s1 with success := true }
      else if o.score > bestScoreOf s then
        { s1 with best := Option.some (i, o.score) }
      else s1
    else { s1 with success := true }

/-- The whole attempt loop, indexing attempts from `i`. -/
def kfLoop (validating : Bool) : ℕ → List AttemptOutcome → KfLoopState →
    KfLoopState
  | _, [], s => s
  | i, o :: rest, s => kfLoop validating (i + 1) rest (kfLoopStep validating i o s)

/-- Effect of the post-loop code (pipeline.py lines 742-780) on the run
state: errors/warnings appended, which attempt's image is recorded in
`state["keyframe_paths"]`, and whether a `.best` temp file survives. -/
structure KfOutcome where
  errorsAdded : ℕ
  warningsAdded : ℕ
  recorded : Option ℕ
  bestTmpRemains : Bool
deriving Repr, DecidableEq

/-- Post-loop handling (pipeline.py lines 742-780).  On success the keyframe
path is recorded (a stale `.best` temp from an earlier failing attempt is not
cleaned, since `best_path` was re-pointed at the keyframe path).  On failure:
a critical keyframe deletes the best temp, appends one error and records
nothing (`continue`); a non-critical keyframe copies the best failing attempt
over the keyframe path and records it; if every generation call failed one
warning is appended; otherwise the last generated image stays at the path and
is recorded when it exists. -/
def kfFinish (critical : Bool) (maxAttempts : ℕ) (s : KfLoopState) : KfOutcome :=
  if s.success then
    { errorsAdded := 0, warningsAdded := 0, recorded := s.pathContent,
      bestTmpRemains := s.best.isSome }
  else if critical then
    { errorsAdded := 1, warningsAdded := 0, recorded := Option.none,
      bestTmpRemains := false }
  else
    match s.best with
    | Option.some (j, _) =>
        { errorsAdded := 0, warningsAdded := 0, recorded := Option.some j,
          bestTmpRemains := false }
    | Option.none =>
        { errorsAdded := 0,
          warningsAdded := if s.genFailures = maxAttempts then 1 else 0,
          recorded := s.pathContent, bestTmpRemains := false }

/-- Keyframe position within a scene (the source strings "start"/"end"). -/
inductive KfType where
  | start
  | endKf
deriving Repr, DecidableEq

/-- Criticality test (pipeline.py line 619): the first scene's start or the
last scene's end keyframe. -/
def isCriticalKf (isFirst isLast : Bool) (kfType : KfType) : Bool :=
  (isFirst && kfType = KfType.start) || (isLast && kfType = KfType.endKf)

/-- Attempt bound read from the config (pipeline.py line 146):
`self.config.get("max_attempts", 7)`. -/
def pipelineMaxAttempts (configMaxAttempts : Option ℕ) : ℕ :=
  configMaxAttempts.getD 7

/-- Per-keyframe attempt bound (pipeline.py line 620):
`7 if is_critical_kf else max_attempts`. -/
def kfMaxAttempts (critical : Bool) (maxAttempts : ℕ) : ℕ :=
  if critical then 7 else maxAttempts

/-- The `max_attempts` entry of `DEFAULT_CONFIG`
(src/generation/config/settings.py line 222). -/
def defaultConfigMaxAttempts : ℕ := 5

/-! #### Lemmas about the acceptance loop -/

theorem kfLoopStep_success_false (i : ℕ) (o : AttemptOutcome) (s : KfLoopState)
    (hs : s.success = false) (h : o.genOk = true → o.valPassed = false) :
    (kfLoopStep true i o s).success = false := by
  unfold kfLoopStep
  cases hgen : o.genOk with
  | false => simp [hs, hgen]
  | true =>
    have hv := h hgen
    simp [hs, hgen, hv]
    split <;> rfl

theorem kfLoop_success_false (l : List AttemptOutcome) (i : ℕ) (s : KfLoopState)
    (hs : s.success = false)
    (h : ∀ o ∈ l, o.genOk = true → o.valPassed = false) :
    (kfLoop true i l s).success = false := by
  induction l generalizing i s with
  | nil => exact hs
  | cons o rest ih =>
    have ho := h o (List.mem_cons_self o rest)
    exact ih (i + 1) _ (kfLoopStep_success_false i o s hs ho)
      (fun a ha => h a (List.mem_cons_of_mem o ha))

theorem kfLoop_best_tracks_max (l : List AttemptOutcome) (i : ℕ) (s : KfLoopState)
    (hs : s.success = false)
    (h : ∀ o ∈ l, o.genOk = true ∧ o.valPassed = false ∧ 0 ≤ o.score) :
    (kfLoop true i l s).success = false ∧
    bestScoreOf s ≤ bestScoreOf (kfLoop true i l s) ∧
    (∀ o ∈ l, o.score ≤ bestScoreOf (kfLoop true i l s)) := by
  induction l generalizing i s with
  | nil => exact ⟨hs, le_refl _, by intro o ho; exact absurd ho (List.not_mem_nil o)⟩
  | cons o rest ih =>
    obtain ⟨hgen, hval, hpos⟩ := h o (List.mem_cons_self o rest)
    have hstep : kfLoopStep true i o s =
        (if o.score > bestScoreOf s then
          { s with pathContent := Option.some i, best := Option.some (i, o.score) }
        else { s with pathContent := Option.some i }) := by
      unfold kfLoopStep
      simp [hs, hgen, hval]
    have hsucc : (kfLoopStep true i o s).success = false := by
      rw [hstep]; split <;> simpa using hs
    have hrest := ih (i + 1) (kfLoopStep true i o s) hsucc
      (fun a ha => h a (List.mem_cons_of_mem o ha))
    have hbest : bestScoreOf s ≤ bestScoreOf (kfLoopStep true i o s) ∧
        o.score ≤ bestScoreOf (kfLoopStep true i o s) := by
      rw [hstep]
      split
      · rename_i hgt
        constructor
        · exact le_of_lt (by simpa [bestScoreOf] using hgt)
        · simp [bestScoreOf]
      · rename_i hle
        constructor
        · simp [bestScoreOf]
        · have : ¬ o.score > bestScoreOf s := hle
          simpa [bestScoreOf] using le_of_not_lt this
    refine ⟨hrest.1, le_trans hbest.1 hrest.2.1, ?_⟩
    intro a ha
    rcases List.mem_cons.mp ha with rfl | hmem
    · exact le_trans hbest.2 hrest.2.1
    · exact hrest.2.2 a hmem

theorem bestScoreOf_nonneg_isSome (s : KfLoopState) (h : 0 ≤ bestScoreOf s) :
    s.best.isSome = true := by
  cases hb : s.best with
  | none => simp [bestScoreOf, hb] at h; linarith
  | some p => simp

/-! #### C1: critical keyframes never degrade -/

/-- C1: for the standard (non-pub) keyframe generation path with validation
on, if no generation attempt passes validation within the attempt bound, a
critical keyframe (first start or last end, pipeline.py line 619) appends
exactly one error to the run's error list, records no artifact path in
`state["keyframe_paths"]`, and the retained best failing attempt is deleted
rather than used (pipeline.py lines 744-754). -/
theorem critical_keyframe_never_from_failing_attempt
    (isFirst isLast : Bool) (kfType : KfType) (attempts : List AttemptOutcome)
    (hcrit : isCriticalKf isFirst isLast kfType = true)
    (h : ∀ o ∈ attempts, o.genOk = true → o.valPassed = false) :
    (kfFinish (isCriticalKf isFirst isLast kfType) attempts.length
        (kfLoop true 0 attempts kfInit)).errorsAdded = 1 ∧
    (kfFinish (isCriticalKf isFirst isLast kfType) attempts.length
        (kfLoop true 0 attempts kfInit)).recorded = Option.none ∧
    (kfFinish (isCriticalKf isFirst isLast kfType) attempts.length
        (kfLoop true 0 attempts kfInit)).bestTmpRemains = false := by
  have hsucc : (kfLoop true 0 attempts kfInit).success = false :=
    kfLoop_success_false attempts 0 kfInit rfl h
  rw [hcrit]
  unfold kfFinish
  simp [hsucc]

/-- Witness for C1 at a concrete run: one critical keyframe (first start),
three attempts, all generated but none passing validation. -/
theorem critical_keyframe_never_from_failing_attempt_witness :
    (kfFinish (isCriticalKf true false KfType.start) 3
        (kfLoop true 0 [⟨true, false, mkRat 1 2⟩, ⟨false, false, 0⟩,
          ⟨true, false, mkRat 3 4⟩] kfInit)).errorsAdded = 1 ∧
    (kfFinish (isCriticalKf true false KfType.start) 3
        (kfLoop true 0 [⟨true, false, mkRat 1 2⟩, ⟨false, false, 0⟩,
          ⟨true, false, mkRat 3 4⟩] kfInit)).recorded = Option.none ∧
    (kfFinish (isCriticalKf true false KfType.start) 3
        (kfLoop true 0 [⟨true, false, mkRat 1 2⟩, ⟨false, false, 0⟩,
          ⟨true, false, mkRat 3 4⟩] kfInit)).bestTmpRemains = false := by
  have h := critical_keyframe_never_from_failing_attempt true false KfType.start
    [⟨true, false, mkRat 1 2⟩, ⟨false, false, 0⟩, ⟨true, false, mkRat 3 4⟩]
    (by decide) (by decide)
  exact h

/-! #### C2: non-critical exhaustion -/

/-- Concrete scenario refuting C2 as stated: a non-critical keyframe, five
attempts, each generated and each failing validation.  The best-scoring
attempt is recorded as the artifact and no error is appended, but the code
only prints the degradation notice (pipeline.py line 759) — nothing is
appended to `results["warnings"]`, so the claimed "exactly one warning" fails. -/
theorem noncritical_exhaustion_no_warning_cex :
    (kfFinish false 5
        (kfLoop true 0 [⟨true, false, mkRat 1 2⟩, ⟨true, false, mkRat 3 5⟩,
          ⟨true, false, mkRat 2 5⟩, ⟨true, false, mkRat 1 2⟩,
          ⟨true, false, mkRat 1 4⟩] kfInit)).warningsAdded = 0 ∧
    (kfFinish false 5
        (kfLoop true 0 [⟨true, false, mkRat 1 2⟩, ⟨true, false, mkRat 3 5⟩,
          ⟨true, false, mkRat 2 5⟩, ⟨true, false, mkRat 1 2⟩,
          ⟨true, false, mkRat 1 4⟩] kfInit)).recorded = Option.some 1 := by
  constructor <;> decide

/-- C2 amended: exhausting retries on a non-critical keyframe whose attempts
were all generated and validated (and all failed) yields exactly one artifact
— the best-scoring attempt copied into the keyframe path — and no entry in
the run's errors list; but no warning is appended to the run's warnings list
(the degradation notice is only printed).  A warning is appended only in the
disjoint sub-case where every generation call itself failed, and then no
artifact exists at all. -/
theorem noncritical_exhaustion_keeps_best (attempts : List AttemptOutcome)
    (hne : attempts ≠ [])
    (h : ∀ o ∈ attempts, o.genOk = true ∧ o.valPassed = false ∧ 0 ≤ o.score) :
    (kfFinish false attempts.length (kfLoop true 0 attempts kfInit)).errorsAdded = 0 ∧
    (kfFinish false attempts.length (kfLoop true 0 attempts kfInit)).warningsAdded = 0 ∧
    (∃ j q, (kfLoop true 0 attempts kfInit).best = Option.some (j, q) ∧
      (kfFinish false attempts.length (kfLoop true 0 attempts kfInit)).recorded =
        Option.some j ∧
      ∀ o ∈ attempts, o.score ≤ q) := by
  obtain ⟨hsucc, _, hmax⟩ := kfLoop_best_tracks_max attempts 0 kfInit rfl h
  obtain ⟨o0, ho0⟩ := List.exists_mem_of_ne_nil attempts hne
  have h0 : 0 ≤ o0.score := (h o0 ho0).2.2
  have hnn : 0 ≤ bestScoreOf (kfLoop true 0 attempts kfInit) :=
    le_trans h0 (hmax o0 ho0)
  have hsome := bestScoreOf_nonneg_isSome _ hnn
  obtain ⟨⟨j, q⟩, hb⟩ := Option.isSome_iff_exists.mp hsome
  have hq : bestScoreOf (kfLoop true 0 attempts kfInit) = q := by
    simp [bestScoreOf, hb]
  have hfin : kfFinish false attempts.length (kfLoop true 0 attempts kfInit) =
      { errorsAdded := 0, warningsAdded := 0, recorded := Option.some j,
        bestTmpRemains := false } := by
    unfold kfFinish
    rw [hsucc]
    simp [hb]
  refine ⟨by rw [hfin], by rw [hfin], j, q, hb, by rw [hfin], ?_⟩
  intro o ho
  rw [← hq]
  exact hmax o ho

/-- Witness for the amended C2 at a concrete run: two generated, failing
attempts; the second (score 3/4) is the best and becomes the artifact. -/
theorem noncritical_exhaustion_keeps_best_witness :
    (kfFinish false 2
        (kfLoop true 0 [⟨true, false, mkRat 1 4⟩, ⟨true, false, mkRat 3 4⟩]
          kfInit)).errorsAdded = 0 ∧
    (kfFinish false 2
        (kfLoop true 0 [⟨true, false, mkRat 1 4⟩, ⟨true, false, mkRat 3 4⟩]
          kfInit)).warningsAdded = 0 ∧
    (∃ j q,
      (kfLoop true 0 [⟨true, false, mkRat 1 4⟩, ⟨true, false, mkRat 3 4⟩]
          kfInit).best = Option.some (j, q) ∧
      (kfFinish false 2
        (kfLoop true 0 [⟨true, false, mkRat 1 4⟩, ⟨true, false, mkRat 3 4⟩]
          kfInit)).recorded = Option.some j ∧
      ∀ o ∈ [(⟨true, false, mkRat 1 4⟩ : AttemptOutcome),
             ⟨true, false, mkRat 3 4⟩], o.score ≤ q) :=
  noncritical_exhaustion_keeps_best
    [⟨true, false, mkRat 1 4⟩, ⟨true, false, mkRat 3 4⟩]
    (by decide) (by decide)

/-! #### C7: attempt bounds -/

/-- Concrete configuration refuting C7 as stated: with `max_attempts` unset,
`DreamPipeline.run` falls back to 7 (pipeline.py line 146), so the critical
bound (7, line 620) is not strictly greater than the ordinary bound. -/
theorem critical_bound_not_always_greater_cex :
    ¬ (kfMaxAttempts true (pipelineMaxAttempts Option.none) >
       kfMaxAttempts false (pipelineMaxAttempts Option.none)) := by
  decide

/-- C7 amended: the critical-keyframe bound is the constant 7; it is strictly
greater than the ordinary bound exactly when the configured `max_attempts`
value (default 7 when unset) is below 7 — in particular under
`DEFAULT_CONFIG`, whose `max_attempts` is 5, but not when the key is unset. -/
theorem critical_bound_analysis (c : Option ℕ) :
    kfMaxAttempts true (pipelineMaxAttempts c) = 7 ∧
    (kfMaxAttempts true (pipelineMaxAttempts c) >
       kfMaxAttempts false (pipelineMaxAttempts c) ↔ pipelineMaxAttempts c < 7) ∧
    kfMaxAttempts true (pipelineMaxAttempts (Option.some defaultConfigMaxAttempts)) >
      kfMaxAttempts false (pipelineMaxAttempts (Option.some defaultConfigMaxAttempts)) := by
  refine ⟨rfl, ?_, by decide⟩
  simp [kfMaxAttempts]

/-! ### Video stage, completeness check, montage and final success
(pipeline.py lines 789-953, standard `scenario` mode) -/

/-- Bound of the video retry loop (pipeline.py line 34). -/
def MAX_VIDEO_ATTEMPTS : ℕ := 4

/-- One scene as the video stage sees it: its identifier, whether
`state["keyframe_paths"]` holds its start and end keyframes, and the success
of each call to `video_gen.generate` the retry loop would make. -/
structure SceneVideo where
  sceneId : ℕ
  hasStart : Bool
  hasEnd : Bool
  attempts : List Bool
deriving Repr, DecidableEq

/-- Accumulated video-stage state: produced clips (by scene id), the
`failed_videos` list, and errors/warnings appended to the run results. -/
structure VideoStageState where
  videoPaths : List ℕ
  failedVideos : List ℕ
  errorsAdded : ℕ
  warningsAdded : ℕ
deriving Repr, DecidableEq

/-- The stage starts by resetting `video_paths` and `failed_videos`
(pipeline.py lines 791-792). -/
def videoStageInit : VideoStageState :=
  { videoPaths := [], failedVideos := [], errorsAdded := 0, warningsAdded := 0 }

/-- Per-scene step (pipeline.py lines 796-840): a scene missing either
keyframe is skipped, recorded as failed and warned about; otherwise the clip
is produced when some attempt within `MAX_VIDEO_ATTEMPTS` succeeds, and on
exhaustion the scene is recorded as failed with an error. -/
def videoSceneStep (st : VideoStageState) (sc : SceneVideo) : VideoStageState :=
  if !(sc.hasStart && sc.hasEnd) then
    { st with failedVideos := st.failedVideos ++ [sc.sceneId],
              warningsAdded := st.warningsAdded + 1 }
  else if (sc.attempts.take MAX_VIDEO_ATTEMPTS).any (· = true) then
    { st with videoPaths := st.videoPaths ++ [sc.sceneId] }
  else
    { st with failedVideos := st.failedVideos ++ [sc.sceneId],
              errorsAdded := st.errorsAdded + 1 }

/-- The whole video stage over the scene list. -/
def videosStage (scenes : List SceneVideo) : VideoStageState :=
  scenes.foldl videoSceneStep videoStageInit

/-- Run state after the video stage: whether `steps["generate_montage"]` is
still set, the current success flag and total error count. -/
structure RunTail where
  montageEnabled : Bool
  success : Bool
  errorsTotal : ℕ
deriving Repr, DecidableEq

/-- Completeness check (pipeline.py lines 854-857): with any failed video,
one more error is appended, `results["success"]` is set `False` and the
montage step is disabled.  `results["success"]` starts `False` (line 91) and
nothing before the montage sets it `True`. -/
def videosCompleteness (montageRequested : Bool) (st : VideoStageState)
    (errors0 : ℕ) : RunTail :=
  let errors := errors0 + st.errorsAdded
  if 0 < st.failedVideos.length then
    { montageEnabled := false, success := false, errorsTotal := errors + 1 }
  else
    { montageEnabled := montageRequested, success := false, errorsTotal := errors }

/-- Montage step and final success flag (pipeline.py lines 862-953, standard
mode): when the montage step is still enabled it fails on an empty clip list,
refuses to assemble when `failed_videos` is non-empty, succeeds in dry-run,
and otherwise reports the concatenation outcome; afterwards (line 952) the
run is marked successful only when the montage was not requested (or dry-run)
and the error list is empty. -/
def montageAndFinalize (dryRun concatOk : Bool) (clips failed : List ℕ)
    (t : RunTail) : RunTail :=
  let t1 :=
    if t.montageEnabled then
      if clips = [] then { t with success := false, errorsTotal := t.errorsTotal + 1 }
      else if failed ≠ [] then { t with success := false }
      else if dryRun then { t with success := true }
      else if concatOk then { t with success := true }
      else { t with success := false, errorsTotal := t.errorsTotal + 1 }
    else t
  if (!t1.montageEnabled || dryRun) && t1.errorsTotal = 0 then
    { t1 with success := true }
  else t1

/-- Video stage followed by completeness check, montage and finalization. -/
def runVideoTail (montageRequested dryRun concatOk : Bool)
    (scenes : List SceneVideo) (errors0 : ℕ) : RunTail :=
  let st := videosStage scenes
  montageAndFinalize dryRun concatOk st.videoPaths st.failedVideos
    (videosCompleteness montageRequested st errors0)

/-! #### C3: a clip never exists without both its keyframes -/

theorem videoSceneStep_paths_sub (st : VideoStageState) (sc : SceneVideo)
    (x : ℕ) (hx : x ∈ (videoSceneStep st sc).videoPaths) :
    x ∈ st.videoPaths ∨ (sc.sceneId = x ∧ sc.hasStart = true ∧ sc.hasEnd = true) := by
  unfold videoSceneStep at hx
  by_cases hkf : (sc.hasStart && sc.hasEnd) = true
  · obtain ⟨hs, he⟩ : sc.hasStart = true ∧ sc.hasEnd = true := by simpa using hkf
    rw [if_neg (by simp [hkf])] at hx
    split at hx
    · simp only [List.mem_append, List.mem_singleton] at hx
      rcases hx with h | h
      · exact Or.inl h
      · exact Or.inr ⟨h.symm, hs, he⟩
    · exact Or.inl hx
  · have hkf2 : (sc.hasStart && sc.hasEnd) = false := by
      cases h2 : (sc.hasStart && sc.hasEnd) <;> simp_all
    rw [if_pos (by simp [hkf2])] at hx
    exact Or.inl hx

theorem videosStage_foldl_paths_sub (scenes : List SceneVideo)
    (st : VideoStageState) (x : ℕ)
    (hx : x ∈ (scenes.foldl videoSceneStep st).videoPaths) :
    x ∈ st.videoPaths ∨
      ∃ sc ∈ scenes, sc.sceneId = x ∧ sc.hasStart = true ∧ sc.hasEnd = true := by
  induction scenes generalizing st with
  | nil => exact Or.inl hx
  | cons sc rest ih =>
    rcases ih (videoSceneStep st sc) (by simpa using hx) with h | ⟨sc2, hsc2, hp⟩
    · rcases videoSceneStep_paths_sub st sc x h with h2 | h2
      · exact Or.inl h2
      · exact Or.inr ⟨sc, List.mem_cons_self sc rest, h2⟩
    · exact Or.inr ⟨sc2, List.mem_cons_of_mem sc hsc2, hp⟩

/-- C3: for every run of the video stage, every scene with a produced clip
has both its start and end keyframes recorded — the stage skips a scene
missing either keyframe and records it as failed instead (pipeline.py lines
796-806), so `scenes_with_both_keyframes ⊇ scenes_with_a_clip`. -/
theorem clip_requires_both_keyframes (scenes : List SceneVideo) (x : ℕ)
    (hx : x ∈ (videosStage scenes).videoPaths) :
    ∃ sc ∈ scenes, sc.sceneId = x ∧ sc.hasStart = true ∧ sc.hasEnd = true := by
  rcases videosStage_foldl_paths_sub scenes videoStageInit x hx with h | h
  · exact absurd h (List.not_mem_nil x)
  · exact h

/-- Witness for C3 at a concrete run: two scenes, the second missing its end
keyframe; the produced clip (scene 1) has both keyframes. -/
theorem clip_requires_both_keyframes_witness :
    1 ∈ (videosStage [⟨1, true, true, [true]⟩, ⟨2, true, false, [true]⟩]).videoPaths ∧
    ∃ sc ∈ [(⟨1, true, true, [true]⟩ : SceneVideo), ⟨2, true, false, [true]⟩],
      sc.sceneId = 1 ∧ sc.hasStart = true ∧ sc.hasEnd = true :=
  ⟨by decide, clip_requires_both_keyframes
    [⟨1, true, true, [true]⟩, ⟨2, true, false, [true]⟩] 1 (by decide)⟩

/-! #### C9: missing clips disable assembly and fail the run -/

/-- C9: for every run in which at least one scene's clip is missing after the
video stage (the `failed_videos` list is non-empty), the montage step is
disabled and the final success flag is `False` — the pipeline never
concatenates a shorter video from the remaining clips (pipeline.py lines
854-857, 863-869, 952). -/
theorem failed_videos_disable_montage (montageRequested dryRun concatOk : Bool)
    (scenes : List SceneVideo) (errors0 : ℕ)
    (h : (videosStage scenes).failedVideos ≠ []) :
    (runVideoTail montageRequested dryRun concatOk scenes errors0).montageEnabled
      = false ∧
    (runVideoTail montageRequested dryRun concatOk scenes errors0).success
      = false := by
  have hlen : 0 < (videosStage scenes).failedVideos.length :=
    List.length_pos.mpr h
  unfold runVideoTail montageAndFinalize videosCompleteness
  simp [hlen]

/-- Witness for C9 at a concrete run: one scene whose four video attempts all
fail, assembly requested, not dry-run, with a working concatenation. -/
theorem failed_videos_disable_montage_witness :
    (runVideoTail true false true
        [⟨1, true, true, [false, false, false, false]⟩] 0).montageEnabled = false ∧
    (runVideoTail true false true
        [⟨1, true, true, [false, false, false, false]⟩] 0).success = false :=
  failed_videos_disable_montage true false true
    [⟨1, true, true, [false, false, false, false]⟩] 0 (by decide)

/-! ### Graduated V1/V2/V3 review selection
(scenario_generator.py, `_validate`, lines 2168-2241) -/

/-- Which validator calls `_validate` makes for a given level
(scenario_generator.py lines 2180-2182):
`do_v1 = enable_v1 and level in ("full", "medium", "light")`,
`do_v2 = enable_v2 and level == "full"`,
`do_v3 = enable_v3 and level in ("full", "medium")`. -/
structure GraduatedChecks where
  v1Ran : Bool
  v2Ran : Bool
  v3Ran : Bool
deriving Repr, DecidableEq

/-- Selection of the executed validators.  V1 is the specific-criterion
check, V2 the meta-coherence and production-rules check, V3 the final
arbiter. -/
def validateChecks (enableV1 enableV2 enableV3 : Bool) (level : String) :
    GraduatedChecks :=
  { v1Ran := enableV1 && (level = "full" || level = "medium" || level = "light")
    v2Ran := enableV2 && level = "full"
    v3Ran := enableV3 && (level = "full" || level = "medium") }

/-- Concrete configuration refuting C5 as stated: under the default
configuration (V1, V2 and V3 all enabled, scenario_generator.py lines 64-66),
the `medium` level does not run the V2 coherence check, and it does run the
V3 arbiter pass. -/
theorem medium_level_cex :
    (validateChecks true true true "medium").v2Ran = false ∧
    (validateChecks true true true "medium").v3Ran = true := by
  constructor <;> rfl

/-- C5 amended: for every enable configuration, a sub-question reviewed at
the `medium` level executes the V1 specific-criterion check (when V1 is
enabled) plus the V3 arbiter pass (when V3 is enabled), and never the V2
global-coherence check — the code docstring's "medium: V1 + V3", not the
specification's "V1 plus the V2 coherence check". -/
theorem medium_level_runs_v1_and_v3 (enableV1 enableV2 enableV3 : Bool) :
    (validateChecks enableV1 enableV2 enableV3 "medium").v1Ran = enableV1 ∧
    (validateChecks enableV1 enableV2 enableV3 "medium").v2Ran = false ∧
    (validateChecks enableV1 enableV2 enableV3 "medium").v3Ran = enableV3 := by
  refine ⟨?_, ?_, ?_⟩ <;> simp [validateChecks]

/-! ### Camera-look relaxation for the climax scene
(scenario_generator.py lines 227-238 and 306-317; pipeline.py line 657;
image_generator.py lines 73-106) -/

/-- Gaze direction written into a converted keyframe spec (the source
strings "camera" and "away"). -/
inductive GazeDirection where
  | camera
  | away
deriving Repr, DecidableEq

/-- Climax flag of converted scene `i` of `n` (scenario_generator.py lines
219, 237): `is_last = (i == len(decoupage) - 1)`, stored as
`allows_camera_look`. -/
def sceneAllowsCameraLook (i n : ℕ) : Bool := i = n - 1

/-- End-keyframe gaze in `convert_v7_to_pipeline` (line 312):
`"camera" if scene["allows_camera_look"] else "away"`. -/
def endKeyframeGaze (allowsCameraLook : Bool) : GazeDirection :=
  if allowsCameraLook then GazeDirection.camera else GazeDirection.away

/-- Start-keyframe gaze in `convert_v7_to_pipeline` (line 300): always
`"away"`. -/
def startKeyframeGaze : GazeDirection := GazeDirection.away

/-- A converted scene, restricted to the gaze-relevant fields. -/
structure ConvertedScene where
  allowsCameraLook : Bool
  startGaze : GazeDirection
  endGaze : GazeDirection
deriving Repr, DecidableEq

/-- The scene list produced by `convert_v7_to_pipeline` for an `n`-scene
decoupage, restricted to the gaze-relevant fields. -/
def convertV7Scenes (n : ℕ) : List ConvertedScene :=
  (List.range n).map fun i =>
    { allowsCameraLook := sceneAllowsCameraLook i n
      startGaze := startKeyframeGaze
      endGaze := endKeyframeGaze (sceneAllowsCameraLook i n) }

/-- The `allows_camera_look` argument `DreamPipeline.run` passes to
`image_gen.generate_keyframe` (pipeline.py line 657):
`is_last and kf_type == "end" and random.random() < 0.5`.  The random draw is
modelled by the boolean `coinHeads`. -/
def genAllowsCameraLook (isLast : Bool) (kfType : KfType) (coinHeads : Bool) :
    Bool :=
  isLast && (kfType = KfType.endKf) && coinHeads

/-- The gaze rule `_build_standard_prompt` emits (image_generator.py lines
78-84): the relaxation text when camera look is allowed, otherwise the
rejection rule. -/
def cameraLookRule (allowsCameraLook : Bool) : String :=
  if allowsCameraLook then "Look directly at camera with a warm, satisfied smile"
  else "Never look at camera"

/-- Concrete run refuting C4 as stated: when the random draw fails
(`random.random() >= 0.5`), the climax scene's end keyframe is generated with
`allows_camera_look = False` and the prompt carries the camera-look rejection
rule — the relaxation is not applied on every generation. -/
theorem climax_relaxation_not_always_cex :
    genAllowsCameraLook true KfType.endKf false = false ∧
    cameraLookRule (genAllowsCameraLook true KfType.endKf false) =
      "Never look at camera" := by
  constructor <;> rfl

/-- C4 amended: in the converted script the climax (last) scene — and only
it — is marked `allows_camera_look`, its end-keyframe gaze field is set to
"camera" and every other keyframe's gaze to "away"; at image-generation time
the camera-look relaxation for the climax end keyframe is applied exactly
when the random draw succeeds (probability one half), and the keyframes of
every non-climax scene are always generated with the camera-look rejection
rule. -/
theorem climax_camera_relaxation (n i : ℕ) (hi : i < n) :
    (convertV7Scenes n)[i]? = Option.some
      { allowsCameraLook := sceneAllowsCameraLook i n
        startGaze := GazeDirection.away
        endGaze := if i = n - 1 then GazeDirection.camera else GazeDirection.away } ∧
    (sceneAllowsCameraLook i n = true ↔ i = n - 1) ∧
    (∀ coinHeads : Bool,
      genAllowsCameraLook true KfType.endKf coinHeads = coinHeads) ∧
    (∀ (kfType : KfType) (coinHeads : Bool),
      genAllowsCameraLook false kfType coinHeads = false) := by
  refine ⟨?_, ?_, ?_, ?_⟩
  · simp only [convertV7Scenes, List.getElem?_map, List.getElem?_range hi,
      Option.map_some']
    simp [endKeyframeGaze, startKeyframeGaze, sceneAllowsCameraLook]
  · simp [sceneAllowsCameraLook]
  · intro c; cases c <;> rfl
  · intro k c; cases k <;> cases c <;> rfl

/-- Witness for the amended C4 at a concrete script of three scenes, index 2
(the climax). -/
theorem climax_camera_relaxation_witness :
    (convertV7Scenes 3)[2]? = Option.some
      { allowsCameraLook := sceneAllowsCameraLook 2 3
        startGaze := GazeDirection.away
        endGaze := if 2 = 3 - 1 then GazeDirection.camera else GazeDirection.away } ∧
    (sceneAllowsCameraLook 2 3 = true ↔ 2 = 3 - 1) ∧
    (∀ coinHeads : Bool,
      genAllowsCameraLook true KfType.endKf coinHeads = coinHeads) ∧
    (∀ (kfType : KfType) (coinHeads : Bool),
      genAllowsCameraLook false kfType coinHeads = false) :=
  climax_camera_relaxation 3 2 (by decide)

/-! ### Outfit reference
(scenario_generator.py, `_step4_parametres_scenes` lines 1626-1708 and
`convert_v7_to_pipeline` lines 285-317) -/

/-- One structured outfit item (schema of step 4.1). -/
structure OutfitItem where
  itemName : String
  color : String
  itemPattern : String
  material : String
deriving Repr, DecidableEq

/-- The outfit-relevant part of one scene's step-4 LLM answer; `Option.none`
models an absent key. -/
structure SceneParamsAnswer where
  tenueProtagoniste : Option String
  outfitItems : Option (List OutfitItem)
deriving Repr, DecidableEq

/-- The canonical outfit reference. -/
structure OutfitReference where
  text : String
  items : List OutfitItem
deriving Repr, DecidableEq

/-- Building `self._outfit_reference` from the first scene's answer
(scenario_generator.py lines 1660-1664): text and items default to empty, and
when no structured items were returned but a textual outfit was, a single
item holding the whole text is synthesized. -/
def mkOutfitReference (p1 : SceneParamsAnswer) : OutfitReference :=
  let text := p1.tenueProtagoniste.getD ""
  let items0 := p1.outfitItems.getD []
  { text := text
    items := if items0.isEmpty && !(text = "") then [⟨text, "", "", ""⟩] else items0 }

/-- Effect of `_step4_parametres_scenes` on outfits: the reference is built
from the first scene's answer, and every scene's stored parameters are the
raw LLM answer for that scene — the reference is injected into later scenes'
prompts and schemas (lines 1674-1694) but the returned answer is stored
without being overwritten (line 1695). -/
def step4SceneParams (answers : List SceneParamsAnswer) :
    OutfitReference × List SceneParamsAnswer :=
  (mkOutfitReference (answers.headD ⟨Option.none, Option.none⟩), answers)

/-- Outfit extraction in `convert_v7_to_pipeline` (lines 285-288): the
scene's own parameter values, with the reference used only as the fallback
for an absent key (`params.get("tenue_protagoniste", outfit_ref["text"])`). -/
def sceneOutfit (outfitRef : OutfitReference) (params : Option SceneParamsAnswer) :
    String × List OutfitItem :=
  match params with
  | Option.some p =>
      (p.tenueProtagoniste.getD outfitRef.text, p.outfitItems.getD outfitRef.items)
  | Option.none => (outfitRef.text, outfitRef.items)

/-- The outfit fields of the `n` converted video scenarios (both the start
and the end keyframe of scene `i` carry `sceneOutfit` of its parameters). -/
def convertOutfits (outfitRef : OutfitReference)
    (paramsList : List SceneParamsAnswer) (n : ℕ) : List (String × List OutfitItem) :=
  (List.range n).map fun i => sceneOutfit outfitRef paramsList[i]?

/-- Concrete script refuting C6 as stated: the second scene's step-4 answer
deviates from the reference outfit, and the converted second scene carries
the deviating outfit, not the first scene's reference — the code stores the
raw per-scene answer and never forces it back to the reference. -/
theorem outfit_not_copied_verbatim_cex :
    (convertOutfits
        (step4SceneParams
          [⟨Option.some "manteau gris anthracite en laine",
            Option.some [⟨"manteau", "gris anthracite", "uni", "laine"⟩]⟩,
           ⟨Option.some "robe rouge en soie",
            Option.some [⟨"robe", "rouge", "uni", "soie"⟩]⟩]).1
        (step4SceneParams
          [⟨Option.some "manteau gris anthracite en laine",
            Option.some [⟨"manteau", "gris anthracite", "uni", "laine"⟩]⟩,
           ⟨Option.some "robe rouge en soie",
            Option.some [⟨"robe", "rouge", "uni", "soie"⟩]⟩]).2 2)[1]? =
      Option.some ("robe rouge en soie", [⟨"robe", "rouge", "uni", "soie"⟩]) ∧
    (step4SceneParams
        [⟨Option.some "manteau gris anthracite en laine",
          Option.some [⟨"manteau", "gris anthracite", "uni", "laine"⟩]⟩,
         ⟨Option.some "robe rouge en soie",
          Option.some [⟨"robe", "rouge", "uni", "soie"⟩]⟩]).1.text =
      "manteau gris anthracite en laine" ∧
    "robe rouge en soie" ≠ "manteau gris anthracite en laine" := by
  refine ⟨?_, rfl, ?_⟩ <;> decide

/-- C6 amended: the first scene's outfit is the canonical reference only in
the sense that it is injected into every later scene's prompt and used as the
fallback at conversion time; the stored outfit of a later scene is its own
LLM answer.  Verbatim propagation holds exactly in the fallback direction:
when a later scene's answer omits both outfit fields, its converted outfit
equals the reference. -/
theorem outfit_reference_fallback (outfitRef : OutfitReference)
    (answers : List SceneParamsAnswer) (n i : ℕ) (hi : i < n)
    (h : ∀ p, answers[i]? = Option.some p →
      p.tenueProtagoniste = Option.none ∧ p.outfitItems = Option.none) :
    (convertOutfits outfitRef answers n)[i]? =
      Option.some (outfitRef.text, outfitRef.items) := by
  simp only [convertOutfits, List.getElem?_map, List.getElem?_range hi,
    Option.map_some']
  cases hp : answers[i]? with
  | none => simp [sceneOutfit]
  | some p =>
    obtain ⟨h1, h2⟩ := h p hp
    simp [sceneOutfit, h1, h2]

/-- Witness for the amended C6: two scenes, the second answer omitting both
outfit fields; its converted outfit equals the reference. -/
theorem outfit_reference_fallback_witness :
    (convertOutfits ⟨"manteau gris", [⟨"manteau", "gris", "uni", "laine"⟩]⟩
        [⟨Option.some "manteau gris", Option.some [⟨"manteau", "gris", "uni", "laine"⟩]⟩,
         ⟨Option.none, Option.none⟩] 2)[1]? =
      Option.some ("manteau gris", [⟨"manteau", "gris", "uni", "laine"⟩]) :=
  outfit_reference_fallback ⟨"manteau gris", [⟨"manteau", "gris", "uni", "laine"⟩]⟩
    [⟨Option.some "manteau gris", Option.some [⟨"manteau", "gris", "uni", "laine"⟩]⟩,
     ⟨Option.none, Option.none⟩] 2 1 (by decide) (by decide)

/-! ### Cost ledger
(scenario_generator.py, `_call_openai_structured` lines 2286-2299,
`get_cost_breakdown` lines 3057-3078) -/

/-- One lane of counters (`tokens_input`, `tokens_output`, `calls`). -/
structure LaneCounters where
  tokensInput : ℕ
  tokensOutput : ℕ
  calls : ℕ
deriving Repr, DecidableEq

/-- Adding one call's usage to a lane. -/
def LaneCounters.bump (c : LaneCounters) (tin tout : ℕ) : LaneCounters :=
  { tokensInput := c.tokensInput + tin, tokensOutput := c.tokensOutput + tout,
    calls := c.calls + 1 }

/-- Component-wise order on lanes. -/
def LaneCounters.le (a b : LaneCounters) : Prop :=
  a.tokensInput ≤ b.tokensInput ∧ a.tokensOutput ≤ b.tokensOutput ∧
    a.calls ≤ b.calls

/-- The three counter dictionaries of `ScenarioGenerator`
(`costs_real`, `costs_generation`, `costs_validation`). -/
structure CostLedger where
  costsReal : LaneCounters
  costsGeneration : LaneCounters
  costsValidation : LaneCounters
deriving Repr, DecidableEq

/-- Usage reported by one LLM call, and whether the call was a validation
call (`is_validation`). -/
structure LlmCallUsage where
  tokensIn : ℕ
  tokensOut : ℕ
  isValidation : Bool
deriving Repr, DecidableEq

/-- The critical section of `_call_openai_structured` (lines 2287-2299),
executed under `self._costs_lock`: the total lane always accumulates, and
exactly one of the validation/generation lanes accumulates according to
`is_validation`.  The event list models the linearization the mutex
enforces. -/
def recordUsage (led : CostLedger) (u : LlmCallUsage) : CostLedger :=
  let led1 := { led with costsReal := led.costsReal.bump u.tokensIn u.tokensOut }
  if u.isValidation then
    { led1 with costsValidation := led1.costsValidation.bump u.tokensIn u.tokensOut }
  else
    { led1 with costsGeneration := led1.costsGeneration.bump u.tokensIn u.tokensOut }

/-- The ledger after a sequence of calls. -/
def runLedger (led0 : CostLedger) (calls : List LlmCallUsage) : CostLedger :=
  calls.foldl recordUsage led0

/-- Per-1k-token rates from `self.config["costs"]` (with their defaults). -/
structure CostRates where
  scenarioInputPer1k : ℚ
  scenarioOutputPer1k : ℚ
  validationInputPer1k : ℚ
  validationOutputPer1k : ℚ
deriving Repr, DecidableEq

/-- The dict returned by `get_cost_breakdown` (lines 3057-3078), restricted
to the numeric fields. -/
structure CostBreakdown where
  generationCalls : ℕ
  generationTokens : ℕ
  generationCostUsd : ℚ
  validationCalls : ℕ
  validationTokens : ℕ
  validationCostUsd : ℚ
  totalUsd : ℚ
deriving Repr, DecidableEq

/-- `get_cost_breakdown`: per-lane cost from token counts and rates, and the
total as the sum of the four partial costs. -/
def getCostBreakdown (led : CostLedger) (r : CostRates) : CostBreakdown :=
  let genIn := (led.costsGeneration.tokensInput : ℚ) / 1000 * r.scenarioInputPer1k
  let genOut := (led.costsGeneration.tokensOutput : ℚ) / 1000 * r.scenarioOutputPer1k
  let valIn := (led.costsValidation.tokensInput : ℚ) / 1000 * r.validationInputPer1k
  let valOut := (led.costsValidation.tokensOutput : ℚ) / 1000 * r.validationOutputPer1k
  { generationCalls := led.costsGeneration.calls
    generationTokens := led.costsGeneration.tokensInput +
      led.costsGeneration.tokensOutput
    generationCostUsd := genIn + genOut
    validationCalls := led.costsValidation.calls
    validationTokens := led.costsValidation.tokensInput +
      led.costsValidation.tokensOutput
    validationCostUsd := valIn + valOut
    totalUsd := genIn + genOut + valIn + valOut }

theorem recordUsage_generation_le (led : CostLedger) (u : LlmCallUsage) :
    LaneCounters.le led.costsGeneration (recordUsage led u).costsGeneration := by
  unfold recordUsage LaneCounters.le LaneCounters.bump
  split <;> simp

theorem recordUsage_validation_le (led : CostLedger) (u : LlmCallUsage) :
    LaneCounters.le led.costsValidation (recordUsage led u).costsValidation := by
  unfold recordUsage LaneCounters.le LaneCounters.bump
  split <;> simp

theorem LaneCounters.le_trans {a b c : LaneCounters}
    (h1 : LaneCounters.le a b) (h2 : LaneCounters.le b c) :
    LaneCounters.le a c := by
  unfold LaneCounters.le at *
  omega

theorem runLedger_generation_le (calls : List LlmCallUsage) (led : CostLedger) :
    LaneCounters.le led.costsGeneration (runLedger led calls).costsGeneration := by
  induction calls generalizing led with
  | nil => unfold runLedger LaneCounters.le; simp
  | cons u rest ih =>
    exact LaneCounters.le_trans (recordUsage_generation_le led u)
      (ih (recordUsage led u))

theorem runLedger_validation_le (calls : List LlmCallUsage) (led : CostLedger) :
    LaneCounters.le led.costsValidation (runLedger led calls).costsValidation := by
  induction calls generalizing led with
  | nil => unfold runLedger LaneCounters.le; simp
  | cons u rest ih =>
    exact LaneCounters.le_trans (recordUsage_validation_le led u)
      (ih (recordUsage led u))

/-- C8: across any run — any linearized sequence of the locked cost updates
of `_call_openai_structured` — the generation-lane and validation-lane token
and call counters after any prefix of calls are bounded by their values after
the whole sequence (each update only adds non-negative token counts and one
call), and for every ledger and rate table the reported `total_usd` of
`get_cost_breakdown` equals the generation-lane cost plus the
validation-lane cost. -/
theorem cost_ledger_monotone_and_total (led0 : CostLedger)
    (pre post : List LlmCallUsage) (led : CostLedger) (r : CostRates) :
    LaneCounters.le (runLedger led0 pre).costsGeneration
      (runLedger led0 (pre ++ post)).costsGeneration ∧
    LaneCounters.le (runLedger led0 pre).costsValidation
      (runLedger led0 (pre ++ post)).costsValidation ∧
    (getCostBreakdown led r).totalUsd =
      (getCostBreakdown led r).generationCostUsd +
        (getCostBreakdown led r).validationCostUsd := by
  refine ⟨?_, ?_, ?_⟩
  · simpa [runLedger, List.foldl_append] using
      runLedger_generation_le post (runLedger led0 pre)
  · simpa [runLedger, List.foldl_append] using
      runLedger_validation_le post (runLedger led0 pre)
  · unfold getCostBreakdown
    ring

/-! ### Biometric face validation
(face_validator.py, `FaceValidator.validate` lines 73-196 and the score
helpers lines 198-263) -/

/-- Result of `FaceValidator.validate`, restricted to the decision fields. -/
structure FaceValidationResult where
  passed : Bool
  cumulativeGap : ℚ
  skipped : Bool
  duplicateDetected : Bool
deriving Repr, DecidableEq

/-- The neutral similarity score used whenever a backend is unavailable or a
scoring call raises (face_validator.py lines 146, 152, 224, 263). -/
def neutralScore : ℚ := mkRat 1 2

/-- The default biometric threshold
(face_validator.py line 40, `DEFAULT_THRESHOLD = 0.8`). -/
def defaultFaceThreshold : ℚ := mkRat 4 5

/-- The DeepFace similarity: the scoring call's result when the backend is
available and the call returns, else the neutral score (lines 143-146 and
the `except` branch at line 224).  `Option.none` models a raised call. -/
def deepfaceScore (available : Bool) (call : Option ℚ) : ℚ :=
  if available then call.getD neutralScore else neutralScore

/-- The ArcFace similarity: available only when the import succeeded and the
analysis app initialised (lines 149-152, exceptions at line 263). -/
def arcfaceScore (available appReady : Bool) (call : Option ℚ) : ℚ :=
  if available && appReady then call.getD neutralScore else neutralScore

/-- Shot-dependent tolerance (lines 97-99):
`tolerance_map.get(shot_type, self.tolerance)`; a present `None` entry means
the face check is skipped for that shot type. -/
def shotToleranceFor (toleranceMap : List (String × Option ℚ)) (defaultTol : ℚ)
    (shot : String) : Option ℚ :=
  match toleranceMap.lookup shot with
  | Option.some v => v
  | Option.none => Option.some defaultTol

/-- The `face_tolerance_by_shot` table of `DEFAULT_CONFIG`
(settings.py lines 331-340). -/
def defaultFaceToleranceByShot : List (String × Option ℚ) :=
  [("close_up", Option.some (mkRat 1 5)), ("medium", Option.some (mkRat 3 10)),
   ("medium_full", Option.some (mkRat 2 5)), ("full", Option.some (mkRat 1 2)),
   ("wide", Option.some (mkRat 3 5)), ("far", Option.some (mkRat 3 5)),
   ("profile", Option.some (mkRat 2 5)), ("back_three_quarter", Option.none)]

/-- The cumulative gap of the two scores against the threshold
(lines 154-158): each score below the threshold contributes its distance. -/
def cumulativeGap (threshold df af : ℚ) : ℚ :=
  (if df < threshold then threshold - df else 0) +
    (if af < threshold then threshold - af else 0)

/-- `FaceValidator.validate` (lines 95-196): a `None` shot tolerance skips
the check; otherwise the duplicate-face pre-check (only when faces are
expected and the ArcFace app is up) rejects outright when more faces are
detected than expected; otherwise the biometric rule
`passed = cumulative_gap < shot_tolerance` applies. -/
def faceValidate (shotTolerance : Option ℚ) (threshold : ℚ)
    (arcfaceOn : Bool) (expectedFaces : ℕ) (faceCount : Option ℕ)
    (dfScore afScore : ℚ) : FaceValidationResult :=
  match shotTolerance with
  | Option.none =>
      { passed := true, cumulativeGap := 0, skipped := true,
        duplicateDetected := false }
  | Option.some tol =>
      if 0 < expectedFaces && arcfaceOn &&
          (match faceCount with
           | Option.some k => expectedFaces < k
           | Option.none => false) then
        { passed := false, cumulativeGap := 999, skipped := false,
          duplicateDetected := true }
      else
        let gap := cumulativeGap threshold dfScore afScore
        { passed := gap < tol, cumulativeGap := gap, skipped := false,
          duplicateDetected := false }

/-- C10: whenever both similarity scores are the neutral 1/2 — both backends
unavailable, or their scoring calls raising, in any combination — the
cumulative gap under the default threshold 4/5 is 3/5, so for every non-None
shot tolerance at most 3/5 the identity check returns `passed = false`: with
no working backend the identity check can never accept an image. -/
theorem no_backend_never_accepts (tol : ℚ) (htol : tol ≤ mkRat 3 5)
    (dfAvail arcAvail arcApp : Bool) (dfCall afCall : Option ℚ)
    (hdf : dfAvail = false ∨ dfCall = Option.none)
    (haf : (arcAvail && arcApp) = false ∨ afCall = Option.none)
    (expectedFaces : ℕ) (faceCount : Option ℕ) :
    (faceValidate (Option.some tol) defaultFaceThreshold (arcAvail && arcApp)
        expectedFaces faceCount (deepfaceScore dfAvail dfCall)
        (arcfaceScore arcAvail arcApp afCall)).passed = false := by
  have hdfs : deepfaceScore dfAvail dfCall = neutralScore := by
    rcases hdf with h | h <;> simp [deepfaceScore, h]
  have hafs : arcfaceScore arcAvail arcApp afCall = neutralScore := by
    rcases haf with h | h <;> simp [arcfaceScore, h]
  have hgap : cumulativeGap defaultFaceThreshold neutralScore neutralScore =
      mkRat 3 5 := by
    unfold cumulativeGap defaultFaceThreshold neutralScore
    norm_num [Rat.mkRat_eq_div]
  simp only [faceValidate, hdfs, hafs, hgap]
  split
  · rfl
  · simp [not_lt.mpr htol]

/-- Witness for C10 at the default `medium` shot tolerance (3/10): both
backends unavailable, one expected face, no face count. -/
theorem no_backend_never_accepts_witness :
    shotToleranceFor defaultFaceToleranceByShot (mkRat 3 10) "medium" =
      Option.some (mkRat 3 10) ∧
    (faceValidate (Option.some (mkRat 3 10)) defaultFaceThreshold
        (false && false) 1 Option.none (deepfaceScore false Option.none)
        (arcfaceScore false false Option.none)).passed = false :=
  ⟨by decide,
   no_backend_never_accepts (mkRat 3 10) (by decide) false false false
     Option.none Option.none (Or.inl rfl) (Or.inl (by decide)) 1 Option.none⟩

end Sublym
